import Mathlib

/-!
Shallow embedding of the WhatsApp deepfake-detector bot
(`message_handler.py`, `storage_service.py`, `document_extraction.py`,
`config.py`, `app.py`) together with theorems settling the frozen claims
about its conversation state machine, media intake pipeline, media
normalizer and document validation.

Python strings are modelled as Lean `String`; Python `str.strip` /
`str.lower` are modelled over the character list (`pyStrip`, `pyLower`);
Python truthiness of optional strings (`None` and `""` are falsy) is
`pyTruthyS`.  External collaborators (WhatsApp download, Supabase upload
and insert, the Modal detectors) are modelled as oracle outcomes carried
in an environment record, and every externally visible call the handler
makes is recorded in a trace of `ExtCall` values.  Floating point
confidences are modelled as rationals (the values the code manipulates,
`0.5`, `confidence * 100`, `int(...)`, are exact).
-/

namespace WhatsappBot

/-- Python `str.strip()` (whitespace from both ends), over the char list. -/
def pyStrip (s : String) : String :=
  ⟨((s.data.dropWhile Char.isWhitespace).reverse.dropWhile Char.isWhitespace).reverse⟩

/-- Python `str.lower()`, character-wise. -/
def pyLower (s : String) : String :=
  ⟨s.data.map Char.toLower⟩

/-- Python `str.upper()`, character-wise. -/
def pyUpper (s : String) : String :=
  ⟨s.data.map Char.toUpper⟩

/-- Python truthiness of an optional string: `None` and `""` are falsy. -/
def pyTruthyS (o : Option String) : Bool :=
  match o with
  | none => false
  | some s => s ≠ ""

/-- Python `a or b` where `a` is an optional string and `b` a string. -/
def pyOrStr (a : Option String) (b : String) : String :=
  match a with
  | none => b
  | some s => if s = "" then b else s

/-- Python `a or b` for an optional rational (`None` and `0` are falsy). -/
def pyOrQ (a : Option ℚ) (b : ℚ) : ℚ :=
  match a with
  | none => b
  | some q => if q = 0 then b else q

/-- Python `int()` on a rational: truncation toward zero. -/
def pyInt (q : ℚ) : Int :=
  if 0 ≤ q then q.floor else -((-q).floor)

/-- Python `sub in s` substring test, over char lists. -/
def strContainsSub (s sub : String) : Bool :=
  s.data.tails.any (fun t => sub.data.isPrefixOf t)

/-- Python `c in s` for a single character. -/
def strContainsChar (s : String) (c : Char) : Bool :=
  s.data.any (fun d => d = c)

/-- Python rsplit on the last dot, first part: everything before the last
dot, or the whole string when no dot occurs. -/
def beforeLastDot (s : String) : String :=
  if strContainsChar s '.' then
    ⟨((s.data.reverse.dropWhile (fun c => c ≠ '.')).drop 1).reverse⟩
  else s

/-- Python rsplit on the last dot, second part: everything after it. -/
def afterLastDot (s : String) : String :=
  ⟨(s.data.reverse.takeWhile (fun c => c ≠ '.')).reverse⟩

/-- Python split on slashes, last part: everything after the last slash. -/
def afterLastSlash (s : String) : String :=
  ⟨(s.data.reverse.takeWhile (fun c => c ≠ '/')).reverse⟩

/-- Python `s.startswith(p)`. -/
def pyStartsWith (s p : String) : Bool :=
  p.data.isPrefixOf s.data

/-! ## Session state (`user_greeted` / `user_state` in `message_handler.py`)

The two module-level dicts are modelled as total functions: `greeted`
is the key set of `user_greeted`, and `mode` is `user_state.get`, whose
result conflates an absent key with a stored `None` exactly as every
read in the source does (`user_state.get(from_number)`). -/

/-- The non-`None` values of `user_state`: image, video, text. -/
inductive UserMode
  | image
  | video
  | text
deriving DecidableEq, Repr

/-- In-memory session store: greeting flags and selected modes. -/
structure BotState where
  greeted : String → Bool
  mode : String → Option UserMode

/-- Write `user_greeted[n] = True`. -/
def BotState.setGreeted (st : BotState) (n : String) : BotState :=
  { st with greeted := fun m => if m = n then true else st.greeted m }

/-- Write `user_state[n] = v`. -/
def BotState.setMode (st : BotState) (n : String) (v : Option UserMode) : BotState :=
  { st with mode := fun m => if m = n then v else st.mode m }

/-! ## Bot messages (`config.py`) -/

/-- Verbatim `WELCOME_MESSAGE` from `config.py`. -/
def WELCOME_MESSAGE : String :=
  "👋 Hey there! Welcome to *Deepfake Detector Bot*!\n\nI can help you detect deepfakes and AI-generated content. \n\n*Please choose what you\x27d like to analyze:*\n\n1️⃣ Send *1* for Image Analysis 🖼\n2️⃣ Send *2* for Video Analysis 🎥\n3️⃣ Send *3* for Text Analysis 📝\n\nJust reply with the number of your choice!"

/-- Verbatim `HELP_MESSAGE` from `config.py`. -/
def HELP_MESSAGE : String :=
  "💡 *How to use this bot:*\n\n*Step 1:* Choose your analysis type\n• Send *1* for Image\n• Send *2* for Video  \n• Send *3* for Text\n\n*Step 2:* Send your content\n• After choosing, send the image/video/text you want analyzed\n\n*Supported formats:*\n📸 Images: JPG, PNG, GIF, WebP\n🎥 Videos: MP4, MOV, AVI, MKV, WebM\n📝 Text: Any text message\n\nType *start* or *hi* to begin again!"

/-- Reply for `{1, image, photo, picture}` in `handle_text_message`. -/
def IMAGE_PROMPT : String :=
  "🖼 Great! Please send me an *image* that you want to analyze for deepfakes.\n\nI\x27m ready to receive your image."

/-- Reply for `{2, video, vid}` in `handle_text_message`. -/
def VIDEO_PROMPT : String :=
  "🎥 Great! Please send me a *video* that you want to analyze for deepfakes.\n\nI\x27m ready to receive your video."

/-- Reply for `{3, text, txt}` in `handle_text_message`. -/
def TEXT_PROMPT : String :=
  "📝 Great! Please send me the *text* that you want to analyze.\n\nType your message below."

/-- The too-short rejection reply in the `AWAITING_TEXT` branch. -/
def TOO_SHORT_REPLY : String :=
  "❌ Text too short\n\nPlease send at least 20 characters for accurate analysis.\n\n" ++ HELP_MESSAGE

/-- Fallback reply when no option has been chosen and no command matched. -/
def UNCLEAR_REPLY : String :=
  "❓ I\x27m not sure what you\x27d like to do.\n\n" ++ WELCOME_MESSAGE

/-! ## External call trace and detector responses -/

/-- One externally visible call made while handling a message. -/
inductive ExtCall
  | sendMessage (recipient msg : String)
  | downloadMedia (mediaId : String)
  | upload (bucket filename : String)
  | insertRecord
  | updateRecord (detection_result : Option String) (confidence_score : Option Int)
  | detectText
  | detectImage
  | detectVideo
deriving DecidableEq, Repr

/-- Response of `detect_text_ai` (`modal_service.py`): the `success` flag,
the fields of `result` the handlers index (`prediction`,
`confidence_percent`, `is_ai`, `confidence`, `agreement`) and the
top-level `error` used when `success` is false. -/
structure TextResp where
  success : Bool
  prediction : String
  confidence_percent : String
  is_ai : Bool
  confidence : ℚ
  agreement : Option String
  error : Option String
deriving Repr

/-! ## `handle_text_message` (`message_handler.py` lines 28-104) -/

/-- Result of `handle_text_message`: the updated session store, the reply
string the function returns, and the trace of external calls it made. -/
structure TextResult where
  state : BotState
  reply : String
  calls : List ExtCall

/-- Reply built from a successful `detect_text_ai` response (the
success branch of `handle_text_message`). -/
def textSuccessReply (r : TextResp) : String :=
  (if r.is_ai then
    "🤖 *AI-GENERATED TEXT DETECTED*\n" ++ "⚠️ Confidence: " ++ r.confidence_percent ++ "\n\n"
   else if r.prediction = "Human" then
    "✅ *AUTHENTIC HUMAN TEXT*\n" ++ "✓ Confidence: " ++ r.confidence_percent ++ "\n\n"
   else
    "❓ *UNCERTAIN*\n" ++ "ℹ️ Confidence: " ++ r.confidence_percent ++ "\n\n")
  ++ "📊 Prediction: " ++ r.prediction ++ "\n"
  ++ "🎯 Agreement: " ++ r.agreement.getD "N/A" ++ "\n"
  ++ "🤖 Model: Ensemble-AI-Detector-v3\n\n"
  ++ HELP_MESSAGE

/-- Translation of `handle_text_message(from_number, text_body)`.  The
`textDetect` oracle is the outcome of the one possible `detect_text_ai`
call: a response dict, or a raised `ModalDetectionError` message. -/
def handle_text_message (textDetect : Except String TextResp) (st : BotState)
    (from_number text_body : String) : TextResult :=
  let user_text := pyLower (pyStrip text_body)
  if st.greeted from_number = false then
    { state := (st.setGreeted from_number).setMode from_number none
      reply := WELCOME_MESSAGE
      calls := [] }
  else if user_text ∈ (["hi", "hello", "hey", "start"] : List String) then
    { state := st.setMode from_number none, reply := WELCOME_MESSAGE, calls := [] }
  else if user_text ∈ (["help", "info", "?", "support"] : List String) then
    { state := st, reply := HELP_MESSAGE, calls := [] }
  else if user_text ∈ (["1", "image", "photo", "picture"] : List String) then
    { state := st.setMode from_number (some UserMode.image), reply := IMAGE_PROMPT, calls := [] }
  else if user_text ∈ (["2", "video", "vid"] : List String) then
    { state := st.setMode from_number (some UserMode.video), reply := VIDEO_PROMPT, calls := [] }
  else if user_text ∈ (["3", "text", "txt"] : List String) then
    { state := st.setMode from_number (some UserMode.text), reply := TEXT_PROMPT, calls := [] }
  else if st.mode from_number = some UserMode.text then
    let st' := st.setMode from_number none
    if (pyStrip text_body).length < 20 then
      { state := st', reply := TOO_SHORT_REPLY, calls := [] }
    else
      match textDetect with
      | Except.ok r =>
        if r.success then
          { state := st', reply := textSuccessReply r, calls := [ExtCall.detectText] }
        else
          { state := st', reply := "❌ Text analysis failed\n\n" ++ HELP_MESSAGE
            calls := [ExtCall.detectText] }
      | Except.error e =>
          { state := st', reply := "❌ Error analyzing text: " ++ e ++ "\n\n" ++ HELP_MESSAGE
            calls := [ExtCall.detectText] }
  else
    { state := st, reply := UNCLEAR_REPLY, calls := [] }

/-- All command words recognized by `handle_text_message` before the
`AWAITING_TEXT` fallthrough branch is reached. -/
def COMMAND_WORDS : List String :=
  ["hi", "hello", "hey", "start", "help", "info", "?", "support",
   "1", "image", "photo", "picture", "2", "video", "vid", "3", "text", "txt"]

/-- Claim C1: for every greeted sender and every text whose trimmed,
lower-cased form is one of `{1, image, photo, picture}`, handling the text
message sets that sender mode to `AWAITING_IMAGE` (image) and returns
the image prompt, regardless of the sender prior mode (a first-contact
sender has no prior mode and receives the welcome reply instead). -/
theorem claim_C1 (td : Except String TextResp) (st : BotState) (from_number text_body : String)
    (hg : st.greeted from_number = true)
    (hcmd : pyLower (pyStrip text_body) ∈ (["1", "image", "photo", "picture"] : List String)) :
    (handle_text_message td st from_number text_body).state.mode from_number
        = some UserMode.image ∧
    (handle_text_message td st from_number text_body).reply = IMAGE_PROMPT := by
  simp only [List.mem_cons, List.not_mem_nil, or_false] at hcmd
  rcases hcmd with h | h | h | h <;>
    simp [handle_text_message, hg, h, BotState.setMode]

/-- Concrete session store for the C1 witness: sender `"111"` greeted, in
`AWAITING_TEXT` mode. -/
def c1State : BotState :=
  { greeted := fun n => n == "111", mode := fun _ => some UserMode.text }

/-- Witness for C1 at sender `"111"` in `AWAITING_TEXT` mode sending
`" Picture "`. -/
theorem claim_C1_witness :
    (handle_text_message (Except.error "down") c1State "111" " Picture ").state.mode "111"
        = some UserMode.image ∧
    (handle_text_message (Except.error "down") c1State "111" " Picture ").reply
        = IMAGE_PROMPT :=
  claim_C1 (Except.error "down") c1State "111" " Picture " (by decide) (by decide)

/-- Claim C4: a greeted sender in `AWAITING_TEXT` mode sending a
non-command text whose stripped length is below 20 gets the too-short
error reply, the external text detector is not invoked (empty call
trace), and the sender mode is reset to `IDLE` (`None`) anyway. -/
theorem claim_C4 (td : Except String TextResp) (st : BotState) (from_number text_body : String)
    (hg : st.greeted from_number = true)
    (hmode : st.mode from_number = some UserMode.text)
    (hnc : pyLower (pyStrip text_body) ∉ COMMAND_WORDS)
    (hshort : (pyStrip text_body).length < 20) :
    (handle_text_message td st from_number text_body).reply = TOO_SHORT_REPLY ∧
    (handle_text_message td st from_number text_body).calls = [] ∧
    (handle_text_message td st from_number text_body).state.mode from_number = none := by
  simp only [COMMAND_WORDS, List.mem_cons, List.not_mem_nil, or_false, not_or] at hnc
  obtain ⟨h1, h2, h3, h4, h5, h6, h7, h8, h9, h10, h11, h12, h13, h14, h15, h16, h17, h18⟩ := hnc
  simp [handle_text_message, hg, hmode, hshort, BotState.setMode,
    h1, h2, h3, h4, h5, h6, h7, h8, h9, h10, h11, h12, h13, h14, h15, h16, h17, h18]

/-- Concrete session store for the C4 witness: sender `"222"` greeted, in
`AWAITING_TEXT` mode. -/
def c4State : BotState :=
  { greeted := fun n => n == "222", mode := fun _ => some UserMode.text }

/-- Witness for C4 at sender `"222"` sending the 15-character-class input
`" hello world "` (stripped length 11, not a command). -/
theorem claim_C4_witness :
    (handle_text_message (Except.error "down") c4State "222" " hello world ").reply
        = TOO_SHORT_REPLY ∧
    (handle_text_message (Except.error "down") c4State "222" " hello world ").calls = [] ∧
    (handle_text_message (Except.error "down") c4State "222" " hello world ").state.mode "222"
        = none :=
  claim_C4 (Except.error "down") c4State "222" " hello world "
    (by decide) (by decide) (by decide) (by decide)

/-! ## Media normalizer (`storage_service.py`, `config.py`) -/

/-- One entry of `FILE_TYPE_MAPPINGS` in `config.py`. -/
structure FileTypeConfig where
  extensions : List String
  bucket : String
  mime_types : List String
deriving DecidableEq, Repr

/-- The `image` entry of `FILE_TYPE_MAPPINGS`. -/
def imageConfig : FileTypeConfig :=
  { extensions := ["jpg", "jpeg", "png", "gif", "webp", "heic"]
    bucket := "image-uploads"
    mime_types := ["image/jpeg", "image/png", "image/gif", "image/webp", "image/heic"] }

/-- The `video` entry of `FILE_TYPE_MAPPINGS`. -/
def videoConfig : FileTypeConfig :=
  { extensions := ["mp4", "mov", "avi", "mkv", "webm"]
    bucket := "video-uploads"
    mime_types := ["video/mp4", "video/quicktime", "video/x-msvideo", "video/x-matroska",
                   "video/webm"] }

/-- The `document` entry of `FILE_TYPE_MAPPINGS`. -/
def documentConfig : FileTypeConfig :=
  { extensions := ["pdf", "doc", "docx", "txt", "csv"]
    bucket := "text-uploads"
    mime_types := ["application/pdf", "application/msword",
                   "application/vnd.openxmlformats-officedocument.wordprocessingml.document",
                   "text/plain", "text/csv"] }

/-- Table `FILE_TYPE_MAPPINGS` from `config.py`, in Python dict iteration order. -/
def FILE_TYPE_MAPPINGS : List (String × FileTypeConfig) :=
  [("image", imageConfig), ("video", videoConfig), ("document", documentConfig)]

/-- Model of the standard-library `mimetypes.guess_extension` table (an
external collaborator of `get_file_extension`, not part of this
repository); only entries for mime types this bot encounters are
included.  No claim depends on this table. -/
def mimetypesGuessExtension (mime : String) : Option String :=
  (([("image/jpeg", ".jpg"), ("image/png", ".png"), ("image/gif", ".gif"),
     ("video/mp4", ".mp4"), ("video/quicktime", ".mov"), ("application/pdf", ".pdf"),
     ("text/plain", ".txt"), ("text/csv", ".csv")] :
      List (String × String)).find? (fun e => e.1 == mime)).map (fun e => e.2)

/-- Translation of `get_file_extension(filename, mime_type)`:
extension from the filename suffix when a dot is present, else from the
mime lookup, else `None`. -/
def get_file_extension (filename : Option String) (mime_type : Option String) :
    Option String :=
  if pyTruthyS filename ∧ strContainsChar (filename.getD "") '.' then
    some (pyLower (afterLastDot (filename.getD "")))
  else if pyTruthyS mime_type then
    match mimetypesGuessExtension (mime_type.getD "") with
    | some e => some ⟨e.data.dropWhile (fun c => c = '.')⟩
    | none => none
  else none

/-- The first loop of `determine_file_type_and_bucket`: match the
extension against each entry of `FILE_TYPE_MAPPINGS` in order (guarded by
the truthiness test `if extension:`). -/
def extLookup (extension : Option String) : Option (String × String) :=
  if pyTruthyS extension then
    (FILE_TYPE_MAPPINGS.find? (fun m => m.2.extensions.contains (extension.getD ""))).map
      (fun m => (m.1, m.2.bucket))
  else none

/-- The second loop of `determine_file_type_and_bucket`: match the mime
type against each entry of `FILE_TYPE_MAPPINGS` in order. -/
def mimeLookup (mime_type : Option String) : Option (String × String) :=
  if pyTruthyS mime_type then
    (FILE_TYPE_MAPPINGS.find? (fun m => m.2.mime_types.contains (mime_type.getD ""))).map
      (fun m => (m.1, m.2.bucket))
  else none

/-- Translation of `determine_file_type_and_bucket(extension, mime_type)`
(`storage_service.py` lines 37-50): extension table first, then mime
table, defaulting to the document category and text-uploads bucket. -/
def determine_file_type_and_bucket (extension mime_type : Option String) : String × String :=
  match extLookup extension with
  | some r => r
  | none =>
    match mimeLookup mime_type with
    | some r => r
    | none => ("document", "text-uploads")

/-- The sanitization step of `generate_unique_filename`: keep only
alphanumeric characters, `-` and `_`, and truncate to 50 characters. -/
def sanitizeBaseName (base : String) : String :=
  ⟨(base.data.filter (fun c => c.isAlphanum || c = '-' || c = '_')).take 50⟩

/-- Translation of `generate_unique_filename(user_id, original_filename,
session_id)` (`storage_service.py` lines 53-69).  The ambient values
`int(time.time())` and `str(uuid.uuid4())[:8]` are passed in as the
`timestamp` and `random_id` oracle arguments.  A filename without a dot
yields extension `None`, which the f-string renders as the text
`"None"`. -/
def generate_unique_filename (user_id original_filename session_id : Option String)
    (timestamp : Nat) (random_id : String) : String :=
  let extension : String :=
    if pyTruthyS original_filename then
      match get_file_extension original_filename none with
      | some e => e
      | none => "None"
    else "bin"
  let base_name : String :=
    if pyTruthyS original_filename then
      sanitizeBaseName (beforeLastDot (original_filename.getD ""))
    else "file"
  let identifier := pyOrStr user_id (pyOrStr session_id "unknown")
  identifier ++ "_" ++ toString timestamp ++ "_" ++ random_id ++ "_" ++ base_name
    ++ "." ++ extension

/-- The row `store_detection_history` inserts into `detection_history`
(`storage_service.py` lines 169-201): `session_id` is always present
(possibly null), `user_id` and `file_url` only when truthy,
`detection_result` defaults to `"pending"` and `confidence_score` to
`0.0` (an `is not None` test, not a truthiness test). -/
structure InsertData where
  session_id : Option String
  user_id : Option String
  file_url : Option String
  filename : String
  file_type : String
  file_size : Int
  file_extension : String
  detection_result : String
  confidence_score : ℚ
  is_file_available : Bool
deriving Repr

/-- Translation of the `data` dict built by `store_detection_history`. -/
def store_detection_history_data (user_id session_id file_url : Option String)
    (filename file_type : String) (file_size : Nat) (file_extension : String)
    (detection_result : Option String) (confidence_score : Option ℚ) : InsertData :=
  { session_id := session_id
    user_id := if pyTruthyS user_id then user_id else none
    file_url := if pyTruthyS file_url then file_url else none
    filename := filename
    file_type := file_type
    file_size := (file_size : Int)
    file_extension := file_extension
    detection_result := pyOrStr detection_result "pending"
    confidence_score := confidence_score.getD 0
    is_file_available := true }

/-- The owner-resolution logic of `api_upload` (`app.py` lines 89-95):
the user id comes from the bearer token, else the form; the session id
from the form; a temporary session id is synthesized only when both are
absent. -/
def api_upload_owner (token_user form_user form_session : Option String)
    (temp_session : String) : Option String × Option String :=
  let user_id := if pyTruthyS token_user then token_user else form_user
  let session_id :=
    if pyTruthyS form_session = false ∧ pyTruthyS user_id = false then some temp_session
    else form_session
  (user_id, session_id)

/-- The Detection Record row inserted by `api_upload` (`app.py` lines
89-119), composing owner resolution with `store_detection_history`. -/
def api_upload_record (token_user form_user form_session : Option String)
    (temp_session : String) (file_url : Option String) (filename file_type : String)
    (file_size : Nat) (file_extension : String) : InsertData :=
  let owner := api_upload_owner token_user form_user form_session temp_session
  store_detection_history_data owner.1 owner.2 file_url filename file_type file_size
    file_extension none none

/-- Claim C5: classification is total and deterministic; a known
extension resolves by the extension table regardless of the mime type, a
known mime type resolves when the extension matches no table entry, and
every unmatched pair resolves to the document/text-uploads default; two
calls on the same input agree. -/
theorem claim_C5 :
    (∀ e mime cat cfg, (cat, cfg) ∈ FILE_TYPE_MAPPINGS → e ∈ cfg.extensions →
      determine_file_type_and_bucket (some e) mime = (cat, cfg.bucket)) ∧
    (∀ ext m cat cfg, extLookup ext = none →
      (cat, cfg) ∈ FILE_TYPE_MAPPINGS → m ∈ cfg.mime_types →
      determine_file_type_and_bucket ext (some m) = (cat, cfg.bucket)) ∧
    (∀ ext mime, extLookup ext = none → mimeLookup mime = none →
      determine_file_type_and_bucket ext mime = ("document", "text-uploads")) ∧
    (∀ ext mime, determine_file_type_and_bucket ext mime
        = determine_file_type_and_bucket ext mime) := by
  refine ⟨?_, ?_, ?_, fun _ _ => rfl⟩
  · intro e mime cat cfg hmem he
    simp only [FILE_TYPE_MAPPINGS, List.mem_cons, List.not_mem_nil, or_false] at hmem
    rcases hmem with h | h | h <;> injection h with h1 h2 <;> subst h1 <;> subst h2 <;>
      [skip; skip; skip] <;> simp only [imageConfig, videoConfig, documentConfig] at he ⊢ <;>
      fin_cases he <;> rfl
  · intro ext m cat cfg hnone hmem hm
    simp only [determine_file_type_and_bucket, hnone]
    simp only [FILE_TYPE_MAPPINGS, List.mem_cons, List.not_mem_nil, or_false] at hmem
    rcases hmem with h | h | h <;> injection h with h1 h2 <;> subst h1 <;> subst h2 <;>
      simp only [imageConfig, videoConfig, documentConfig] at hm ⊢ <;>
      fin_cases hm <;> rfl
  · intro ext mime h1 h2
    simp [determine_file_type_and_bucket, h1, h2]

/-- Witness for C5: a known extension wins over a conflicting mime type,
a known mime type resolves when the extension is unknown, and a fully
unknown pair falls back to the document default. -/
theorem claim_C5_witness :
    determine_file_type_and_bucket (some "jpg") (some "text/plain")
        = ("image", imageConfig.bucket) ∧
    determine_file_type_and_bucket (some "zzz") (some "video/mp4")
        = ("video", videoConfig.bucket) ∧
    determine_file_type_and_bucket (some "zzz") (some "foo/bar")
        = ("document", "text-uploads") :=
  ⟨claim_C5.1 "jpg" (some "text/plain") "image" imageConfig (by decide) (by decide),
   claim_C5.2.1 (some "zzz") "video/mp4" "video" videoConfig (by decide) (by decide) (by decide),
   claim_C5.2.2.1 (some "zzz") (some "foo/bar") (by decide) (by decide)⟩

/-- The character set the C8 claim allows anywhere in a storage key:
alphanumerics, `-`, `_` (the sanitized set and separators) and the `.`
before the extension. -/
def sanitizedKeyChar (c : Char) : Bool :=
  c.isAlphanum || c = '-' || c = '_' || c = '.'

/-- Counterexample to C8 as stated: with the phone-number session id
`"+15551234567"` as owner identifier (exactly what the WhatsApp path
passes), the generated key contains a plus sign, a character outside the
sanitized set — only the base-name component is sanitized. -/
theorem claim_C8_counterexample :
    strContainsChar
      (generate_unique_filename none (some "x.jpg") (some "+15551234567") 0 "abcd1234") '+'
      = true ∧
    sanitizedKeyChar '+' = false := by decide

/-- Claim C8 (amended): the sanitized base-name component contains only
characters from the sanitized set and is at most 50 characters long, and
two calls with identical inputs whose rendered timestamp or random
component differ (the random components having equal length, as the code
always takes 8 hex characters) produce distinct keys; characters outside
the sanitized set can still reach the key through the owner identifier
and the extension, which are not sanitized. -/
theorem claim_C8_amended (user_id original_filename session_id : Option String)
    (base : String) (t1 t2 : Nat) (r1 r2 : String)
    (hlen : r1.length = r2.length)
    (hne : toString t1 ≠ toString t2 ∨ r1 ≠ r2) :
    (∀ c ∈ (sanitizeBaseName base).data, (c.isAlphanum || c = '-' || c = '_') = true) ∧
    (sanitizeBaseName base).length ≤ 50 ∧
    generate_unique_filename user_id original_filename session_id t1 r1
      ≠ generate_unique_filename user_id original_filename session_id t2 r2 := by
  refine ⟨?_, ?_, ?_⟩
  · intro c hc
    exact (List.mem_filter.mp (List.mem_of_mem_take hc)).2
  · exact List.length_take_le 50 _
  · intro hkey
    have hd := congrArg String.data hkey
    simp only [generate_unique_filename, String.data_append, ← List.append_assoc] at hd
    replace hd := List.append_cancel_right hd
    replace hd := List.append_cancel_right hd
    replace hd := List.append_cancel_right hd
    replace hd := List.append_cancel_right hd
    obtain ⟨hpre, hr⟩ := List.append_inj' hd (by simpa using hlen)
    replace hpre := List.append_cancel_right hpre
    replace hpre := List.append_cancel_left hpre
    rcases hne with h | h
    · exact h (String.ext hpre)
    · exact h (String.ext hr)

/-- Witness for C8 (amended) at a concrete filename and differing
timestamps. -/
theorem claim_C8_amended_witness :
    (∀ c ∈ (sanitizeBaseName "my file!").data, (c.isAlphanum || c = '-' || c = '_') = true) ∧
    (sanitizeBaseName "my file!").length ≤ 50 ∧
    generate_unique_filename none (some "my file!.jpg") (some "555") 10 "aaaabbbb"
      ≠ generate_unique_filename none (some "my file!.jpg") (some "555") 11 "aaaabbbb" :=
  claim_C8_amended none (some "my file!.jpg") (some "555") "my file!" 10 11
    "aaaabbbb" "aaaabbbb" rfl (Or.inl (by decide))

/-- Counterexample to C9 as stated: when the upload endpoint receives
both a form user id and a form session id, the inserted Detection Record
carries both owners — the exclusive-or fails. -/
theorem claim_C9_counterexample :
    (api_upload_record none (some "user-1") (some "sess-1") "temp" (some "http://u")
        "f.jpg" "image" 10 "jpg").user_id ≠ none ∧
    (api_upload_record none (some "user-1") (some "sess-1") "temp" (some "http://u")
        "f.jpg" "image" 10 "jpg").session_id ≠ none := by decide

/-- Claim C9 (amended): an inserted Detection Record always has at least
one owner set (a temporary session id is synthesized when neither is
supplied); exactly one owner is set whenever at most one is supplied, and
WhatsApp-path inserts always carry only the session id; but when both a
user id and a session id are supplied to the upload endpoint, both are
set.  Form fields are assumed to be absent-or-nonempty. -/
theorem claim_C9_amended (token_user form_user form_session : Option String)
    (temp_session : String) (file_url : Option String) (filename file_type : String)
    (file_size : Nat) (file_extension : String)
    (htu : pyTruthyS token_user = token_user.isSome)
    (hfu : pyTruthyS form_user = form_user.isSome)
    (hfs : pyTruthyS form_session = form_session.isSome) :
    (let r := api_upload_record token_user form_user form_session temp_session file_url
        filename file_type file_size file_extension
    (r.user_id ≠ none ∨ r.session_id ≠ none) ∧
    ((token_user = none ∧ form_user = none) → r.user_id = none ∧ r.session_id ≠ none) ∧
    ((token_user ≠ none ∨ form_user ≠ none) → form_session = none →
        r.user_id ≠ none ∧ r.session_id = none) ∧
    ((token_user ≠ none ∨ form_user ≠ none) → form_session ≠ none →
        r.user_id ≠ none ∧ r.session_id ≠ none)) ∧
    (∀ from_number fname ftype fsize fext furl,
      (store_detection_history_data none (some from_number) furl fname ftype fsize fext
          none none).user_id = none ∧
      (store_detection_history_data none (some from_number) furl fname ftype fsize fext
          none none).session_id = some from_number) := by
  constructor
  · rcases token_user with _ | tu <;> rcases form_user with _ | fu <;>
      rcases form_session with _ | fs <;>
      simp_all [api_upload_record, api_upload_owner, store_detection_history_data, pyTruthyS]
  · intro from_number fname ftype fsize fext furl
    simp [store_detection_history_data, pyTruthyS]

/-- Witness for C9 (amended): an anonymous WhatsApp-style insert with no
user id and no form session id synthesizes a temp session and sets
exactly the session owner. -/
theorem claim_C9_amended_witness :
    ((api_upload_record none none none "temp-1" (some "http://u") "f.jpg" "image" 10
        "jpg").user_id = none ∧
     (api_upload_record none none none "temp-1" (some "http://u") "f.jpg" "image" 10
        "jpg").session_id ≠ none) ∧
    (store_detection_history_data none (some "555") (some "http://u") "f.jpg" "image" 10
        "jpg" none none).session_id = some "555" :=
  ⟨(claim_C9_amended none none none "temp-1" (some "http://u") "f.jpg" "image" 10 "jpg"
      rfl rfl rfl).1.2.1 ⟨rfl, rfl⟩,
   ((claim_C9_amended none none none "temp-1" (some "http://u") "f.jpg" "image" 10 "jpg"
      rfl rfl rfl).2 "555" "f.jpg" "image" 10 "jpg" (some "http://u")).2⟩

/-! ## Document validation (`document_extraction.py` lines 213-236) -/

/-- Translation of `is_valid_document_for_detection(text, min_chars,
max_chars)`: empty or whitespace-only text is rejected, the stripped
character count is then checked against the bounds, and acceptance
returns `(True, "")`. -/
def is_valid_document_for_detection (text : String) (min_chars max_chars : Nat) :
    Bool × String :=
  if text = "" ∨ pyStrip text = "" then
    (false, "No text content found in document")
  else
    let char_count := (pyStrip text).length
    if char_count < min_chars then
      (false, "Document too short (" ++ toString char_count ++ " chars). Minimum "
        ++ toString min_chars ++ " characters required.")
    else if char_count > max_chars then
      (false, "Document too long (" ++ toString char_count ++ " chars). Maximum "
        ++ toString max_chars ++ " characters allowed.")
    else
      (true, "")

/-- A string append with a nonempty left part is nonempty. -/
theorem str_append_ne_empty (s t : String) (hs : s ≠ "") : s ++ t ≠ "" := by
  intro h
  have h0 := congrArg String.length h
  rw [String.length_append] at h0
  exact hs (String.ext (List.length_eq_zero.mp (Nat.eq_zero_of_add_eq_zero_right h0)))

/-- A `dropWhile` leaves a replicate of a non-matching character intact. -/
theorem dropWhile_replicate (p : Char → Bool) (n : Nat) (c : Char) (h : p c = false) :
    List.dropWhile p (List.replicate n c) = List.replicate n c := by
  cases n <;> simp [List.replicate_succ, List.dropWhile, h]

/-- Stripping a string of repeated non-whitespace characters is the
identity. -/
theorem pyStrip_replicate (n : Nat) (c : Char) (h : c.isWhitespace = false) :
    pyStrip ⟨List.replicate n c⟩ = ⟨List.replicate n c⟩ := by
  have hd : ∀ m, List.dropWhile Char.isWhitespace (List.replicate m c) = List.replicate m c :=
    fun m => dropWhile_replicate _ m c h
  simp [pyStrip, hd, List.reverse_replicate]

/-- Claim C6: document validation rejects any text whose stripped length
is below 20 (including 19 and whitespace-only text), accepts stripped
length exactly 20 with `(True, "")`, and rejects any stripped length
above 100000 (including 100001), always returning `False` with a
nonempty reason on rejection. -/
theorem claim_C6 (t : String) :
    ((pyStrip t).length < 20 →
      (is_valid_document_for_detection t 20 100000).1 = false ∧
      (is_valid_document_for_detection t 20 100000).2 ≠ "") ∧
    ((pyStrip t).length = 20 →
      is_valid_document_for_detection t 20 100000 = (true, "")) ∧
    ((pyStrip t).length > 100000 →
      (is_valid_document_for_detection t 20 100000).1 = false ∧
      (is_valid_document_for_detection t 20 100000).2 ≠ "") := by
  refine ⟨?_, ?_, ?_⟩
  · intro h
    by_cases h0 : t = "" ∨ pyStrip t = ""
    · refine ⟨?_, ?_⟩ <;> simp [is_valid_document_for_detection, h0]
    · constructor
      · simp [is_valid_document_for_detection, h0, h]
      · simp only [is_valid_document_for_detection, h0, if_false, if_pos h]
        exact str_append_ne_empty "Document too short (" _ (by decide)
  · intro h
    have h0 : ¬(t = "" ∨ pyStrip t = "") := by
      rintro (rfl | he)
      · simp [show pyStrip "" = "" from rfl] at h
      · rw [he] at h
        simp [show ("" : String).length = 0 from rfl] at h
    simp [is_valid_document_for_detection, h0, h]
  · intro h
    have hlt : ¬((pyStrip t).length < 20) := by omega
    have h0 : ¬(t = "" ∨ pyStrip t = "") := by
      rintro (rfl | he)
      · simp [show pyStrip "" = "" from rfl] at h
      · rw [he] at h
        simp [show ("" : String).length = 0 from rfl] at h
    constructor
    · simp [is_valid_document_for_detection, h0, hlt, h]
    · simp only [is_valid_document_for_detection, h0, if_false, if_neg hlt, if_pos h]
      exact str_append_ne_empty "Document too long (" _ (by decide)

/-- A 19-character text for the C6 witness. -/
def str19 : String := ⟨List.replicate 19 'a'⟩

/-- A 20-character text for the C6 witness. -/
def str20 : String := ⟨List.replicate 20 'a'⟩

/-- A 100001-character text for the C6 witness. -/
def strBig : String := ⟨List.replicate 100001 'a'⟩

/-- Witness for C6 at texts of stripped length 19, 20 and 100001. -/
theorem claim_C6_witness :
    (is_valid_document_for_detection str19 20 100000).1 = false ∧
    is_valid_document_for_detection str20 20 100000 = (true, "") ∧
    (is_valid_document_for_detection strBig 20 100000).1 = false := by
  have h19 : (pyStrip str19).length < 20 := by
    rw [show pyStrip str19 = str19 from pyStrip_replicate 19 'a' (by decide)]
    show (List.replicate 19 'a').length < 20
    rw [List.length_replicate]
    norm_num
  have h20 : (pyStrip str20).length = 20 := by
    rw [show pyStrip str20 = str20 from pyStrip_replicate 20 'a' (by decide)]
    show (List.replicate 20 'a').length = 20
    rw [List.length_replicate]
  have hBig : (pyStrip strBig).length > 100000 := by
    rw [show pyStrip strBig = strBig from pyStrip_replicate 100001 'a' (by decide)]
    show (List.replicate 100001 'a').length > 100000
    rw [List.length_replicate]
    norm_num
  exact ⟨((claim_C6 str19).1 h19).1, (claim_C6 str20).2.1 h20,
    ((claim_C6 strBig).2.2 hBig).1⟩

/-! ## Inbound messages and the media environment

`handle_media_message` interacts with external collaborators (WhatsApp
media download, Supabase storage upload, Supabase table insert/update,
the Modal detectors).  Their outcomes are oracle values in `MediaEnv`.
Record updates whose failures the source catches or swallows (the video
and document branches wrap them in a broad exception handler, and the
error-path writes sit in try/pass blocks) are modelled as recorded
trace entries (`ExtCall.updateRecord`).  The one update the source does
NOT protect is the image-branch success-path
`update().execute()` (`message_handler.py` lines 324-336), guarded only
by an exception handler for `ModalDetectionError`: a storage failure
there escapes to the outer handler (line 476), so its outcome is a
separate oracle (`imageUpdate`).  Only the record fields the claims
mention (`detection_result`, `confidence_score`) are carried on an
update; the structured `detector_scores`/`model_metadata` payloads are
not modelled. -/

/-- Payload of one media attachment (`{image|video|document}` key of a
WhatsApp message): each field read through `.get`, absent means `None`. -/
structure MediaInfo where
  id : Option String := none
  mime_type : Option String := none
  filename : Option String := none
deriving Repr

/-- An inbound WhatsApp message as the handlers read it: the `type`
discriminator and the three possible media payloads (an absent payload
key reads as an empty dict, i.e. all-`None` fields). -/
structure InMessage where
  msgType : Option String := none
  textBody : String := ""
  image : MediaInfo := {}
  video : MediaInfo := {}
  document : MediaInfo := {}
deriving Repr

/-- Fields of a `detect_video_multimodal` response the claims touch
(`final_verdict`, `confidence`); the per-layer breakdown is not
modelled. -/
structure VideoResp where
  final_verdict : Option String
  confidence : Option ℚ
deriving Repr

/-- A `detect_image_ai` response: all field names the handler tolerates,
each possibly absent. -/
structure ImageResp where
  top_prediction : Option String
  label : Option String
  prediction : Option String
  confidence : Option ℚ
  score : Option ℚ
deriving Repr

/-- Outcome of `extract_text_from_document`: the extracted text and the
extraction method (the metadata counts are derived from the text). -/
structure DocExtract where
  text : String
  method : String
deriving Repr

/-- The row returned by a successful `detection_history` insert. -/
structure DetRecord where
  id : Option String
deriving Repr

/-- Oracle outcomes of all external calls one `handle_media_message` run
can make, plus the ambient `time.time()`/`uuid4` values. -/
structure MediaEnv where
  now : Nat
  random_id : String
  download : Option (List Nat × Option String)
  uploadUrl : Option String
  persist : Option DetRecord
  videoDetect : Except String VideoResp
  imageDetect : Except String ImageResp
  imageUpdate : Option String
  extractDoc : Except String DocExtract
  textDetect : Except String TextResp

/-- The normalized image-detection outcome stored in
`result["detection"]` by the image branch. -/
structure ImageDetInfo where
  final_verdict : String
  confidence : ℚ
  top_prediction : String
  is_ai_generated : Bool
deriving Repr, DecidableEq

/-- The `result["detection"]` payload, per category. -/
inductive DetectionInfo
  | videoDet (resp : VideoResp)
  | imageDet (info : ImageDetInfo)
  | docDet (prediction : String) (confidence : ℚ) (is_ai : Bool) (agreement : Option String)
  | errInfo (msg : String)
deriving Repr

/-- The `result` dict `handle_media_message` returns on success. -/
structure PipelineResult where
  file_url : String
  filename : String
  file_type : String
  bucket : String
  size : Nat
  record_id : Option String
  msg_type : Option String
  detection : Option DetectionInfo
deriving Repr

/-- Result of `handle_media_message`: updated session store, the
`(success, result-or-error-string)` pair, and the trace of external
calls. -/
structure MediaResult where
  state : BotState
  success : Bool
  reply : String
  result : Option PipelineResult
  calls : List ExtCall

/-- Reply for a media message when no option was chosen yet
(`handle_media_message` line 134). -/
def CHOOSE_OPTION_REPLY : String :=
  "Please choose an option first:\n\n1️⃣ Send *1* for Image Analysis\n2️⃣ Send *2* for Video Analysis\n3️⃣ Send *3* for Text Analysis"

/-- Reply sent alongside the welcome when an ungreeted sender sends
media (`handle_media_message` line 125). -/
def FIRST_MEDIA_REPLY : String :=
  "Please choose an option first (1 for Image, 2 for Video, 3 for Text)"

/-- Rendering of a `user_state` value inside an f-string. -/
def modeStr : Option UserMode → String
  | none => "None"
  | some UserMode.image => "image"
  | some UserMode.video => "video"
  | some UserMode.text => "text"

/-- Corrective reply for an image sent while another mode is expected. -/
def MISMATCH_IMAGE_REPLY (expected : String) : String :=
  "⚠️ You selected option \x27" ++ expected
    ++ "\x27 but sent an image.\n\nPlease send the correct type of content, or type \x27start\x27 to choose again."

/-- Corrective reply for a video sent while another mode is expected. -/
def MISMATCH_VIDEO_REPLY (expected : String) : String :=
  "⚠️ You selected option \x27" ++ expected
    ++ "\x27 but sent a video.\n\nPlease send the correct type of content, or type \x27start\x27 to choose again."

/-- Corrective reply for a non-image document while awaiting an image. -/
def DOC_NOT_IMAGE_REPLY : String :=
  "⚠️ You selected \x27image\x27 but sent a document.\n\nPlease send an image file, or type \x27start\x27 to choose again."

/-- Corrective reply for a non-video document while awaiting a video. -/
def DOC_NOT_VIDEO_REPLY : String :=
  "⚠️ You selected \x27video\x27 but sent a document.\n\nPlease send a video file, or type \x27start\x27 to choose again."

/-- Media-information extraction of `handle_media_message` (lines
150-178): per message type, the media id, the mime type (with its
per-type default) and the original filename (synthesized with a
timestamp and a mime-derived extension when absent or dotless);
`none` for an unsupported type. -/
def extractMediaInfo (now : Nat) (message : InMessage) :
    Option (Option String × String × String) :=
  if message.msgType = some "image" then
    let mime := message.image.mime_type.getD "image/jpeg"
    let fname :=
      if pyTruthyS message.image.filename = false
          ∨ strContainsChar (message.image.filename.getD "") '.' = false then
        let ext := if strContainsSub mime "jpeg" then "jpg"
          else if strContainsChar mime '/' then afterLastSlash mime else "jpg"
        "image_" ++ toString now ++ "." ++ ext
      else message.image.filename.getD ""
    some (message.image.id, mime, fname)
  else if message.msgType = some "video" then
    let mime := message.video.mime_type.getD "video/mp4"
    let fname :=
      if pyTruthyS message.video.filename = false
          ∨ strContainsChar (message.video.filename.getD "") '.' = false then
        let ext := if strContainsChar mime '/' then afterLastSlash mime else "mp4"
        "video_" ++ toString now ++ "." ++ ext
      else message.video.filename.getD ""
    some (message.video.id, mime, fname)
  else if message.msgType = some "document" then
    let mime := message.document.mime_type.getD "application/octet-stream"
    let fname :=
      if pyTruthyS message.document.filename = false
          ∨ strContainsChar (message.document.filename.getD "") '.' = false then
        let ext := if strContainsChar mime '/' then afterLastSlash mime else "bin"
        "document_" ++ toString now ++ "." ++ ext
      else message.document.filename.getD ""
    some (message.document.id, mime, fname)
  else none

/-- The image-branch response mapping of `handle_media_message` (lines
316-344): tolerant field lookup with Python `or` falsiness, the
AI/FAKE/GENERATED substring test on the upper-cased label, the `0.5`
confidence default, and the record-update fields
`("FAKE"|"REAL", int(confidence * 100))`. -/
def processImageDetection (resp : ImageResp) :
    (Option String × Option Int) × ImageDetInfo :=
  let top_pred := pyUpper (pyOrStr resp.top_prediction
    (pyOrStr resp.label (resp.prediction.getD "")))
  let is_fake := strContainsSub top_pred "AI" || strContainsSub top_pred "FAKE"
    || strContainsSub top_pred "GENERATED"
  let confidence := pyOrQ resp.confidence (resp.score.getD (1/2))
  ((some (if is_fake then "FAKE" else "REAL"), some (pyInt (confidence * 100))),
   { final_verdict := if is_fake then "FAKE" else "REAL"
     confidence := confidence
     top_prediction := top_pred
     is_ai_generated := is_fake })

/-- Python `len(text.split())`: number of maximal non-whitespace runs. -/
def pyWordCount (s : String) : Nat :=
  ((s.data.splitOnP Char.isWhitespace).filter (fun w => w ≠ [])).length

/-- The detection step of `handle_media_message` (lines 236-469),
dispatched on the resolved file type, on the runs where no exception
escapes: each branch produces the calls it makes (detector invocation
and record update) and the `result["detection"]` payload.  Detector
failures are the typed errors the branches catch.  The image-branch
success-path record update is assumed acknowledged here; the case where
it raises — which its narrow `except ModalDetectionError` guard does
not catch — is handled in `handle_media_message` via
`imageUpdateEscapes`. -/
def runDetection (env : MediaEnv) (file_type : String) :
    List ExtCall × Option DetectionInfo :=
  if file_type = "video" then
    match env.videoDetect with
    | Except.ok resp =>
      ([ExtCall.detectVideo,
        ExtCall.updateRecord resp.final_verdict (some (pyInt ((resp.confidence.getD 0) * 100)))],
       some (DetectionInfo.videoDet resp))
    | Except.error e =>
      ([ExtCall.detectVideo, ExtCall.updateRecord (some "error") none],
       some (DetectionInfo.errInfo e))
  else if file_type = "image" then
    match env.imageDetect with
    | Except.ok resp =>
      let r := processImageDetection resp
      ([ExtCall.detectImage, ExtCall.updateRecord r.1.1 r.1.2],
       some (DetectionInfo.imageDet r.2))
    | Except.error e =>
      ([ExtCall.detectImage, ExtCall.updateRecord (some "error") none],
       some (DetectionInfo.errInfo e))
  else if file_type = "document" then
    match env.extractDoc with
    | Except.error e =>
      ([ExtCall.updateRecord (some "error") none], some (DetectionInfo.errInfo e))
    | Except.ok d =>
      let valid := is_valid_document_for_detection d.text 20 100000
      if valid.1 then
        match env.textDetect with
        | Except.error e =>
          ([ExtCall.detectText, ExtCall.updateRecord (some "error") none],
           some (DetectionInfo.errInfo e))
        | Except.ok resp =>
          if resp.success then
            ([ExtCall.detectText,
              ExtCall.updateRecord (some (if resp.is_ai then "FAKE" else "REAL"))
                (some (pyInt (resp.confidence * 100)))],
             some (DetectionInfo.docDet resp.prediction resp.confidence resp.is_ai
               resp.agreement))
          else
            ([ExtCall.detectText],
             some (DetectionInfo.errInfo (resp.error.getD "Text detection failed")))
      else
        ([ExtCall.updateRecord (some "error") none], some (DetectionInfo.errInfo valid.2))
  else ([], none)

/-- Whether an `Except` outcome is a success. -/
def exceptIsOk {ε α : Type} : Except ε α → Bool
  | Except.ok _ => true
  | Except.error _ => false

/-- The one uncaught exception of the detection step: on the image
path, after a successful detector call, the success-path
`update().execute()` (`message_handler.py` lines 324-336) is guarded
only by an exception handler for `ModalDetectionError`, so a storage
failure there (oracle `env.imageUpdate = some e`) propagates to the
outer handler at line 476.  Every other branch catches or swallows its
update failures. -/
def imageUpdateEscapes (env : MediaEnv) (file_type : String) : Option String :=
  if file_type = "image" ∧ exceptIsOk env.imageDetect = true then env.imageUpdate
  else none

/-- Translation of `handle_media_message(message, from_number, user_id)`
(`message_handler.py` lines 107-478): greeting, mode-match validation,
media-info extraction, then the download → classify → upload → persist →
detect pipeline, resetting the sender mode to `None` when a Detection
Record was created and the run reached its success return.  When the
image-branch success-path record update raises
(`imageUpdateEscapes`), the outer exception handler (line 476) returns
`(False, str(e))` without executing the mode reset of line 472; the
raising update is not recorded as a completed call. -/
def handle_media_message (env : MediaEnv) (st : BotState) (message : InMessage)
    (from_number : String) (user_id : Option String) : MediaResult :=
  if st.greeted from_number = false then
    { state := (st.setGreeted from_number).setMode from_number none
      success := false
      reply := FIRST_MEDIA_REPLY
      result := none
      calls := [ExtCall.sendMessage from_number WELCOME_MESSAGE] }
  else
    let expected_state := st.mode from_number
    if expected_state = none then
      { state := st, success := false, reply := CHOOSE_OPTION_REPLY, result := none
        calls := [] }
    else if message.msgType = some "image" ∧ expected_state ≠ some UserMode.image then
      { state := st, success := false, reply := MISMATCH_IMAGE_REPLY (modeStr expected_state)
        result := none, calls := [] }
    else if message.msgType = some "video" ∧ expected_state ≠ some UserMode.video then
      { state := st, success := false, reply := MISMATCH_VIDEO_REPLY (modeStr expected_state)
        result := none, calls := [] }
    else if message.msgType = some "document" ∧ expected_state = some UserMode.image ∧
        pyStartsWith (message.document.mime_type.getD "") "image/" = false then
      { state := st, success := false, reply := DOC_NOT_IMAGE_REPLY, result := none
        calls := [] }
    else if message.msgType = some "document" ∧ expected_state = some UserMode.video ∧
        pyStartsWith (message.document.mime_type.getD "") "video/" = false then
      { state := st, success := false, reply := DOC_NOT_VIDEO_REPLY, result := none
        calls := [] }
    else
      match extractMediaInfo env.now message with
      | none =>
        { state := st, success := false, reply := "Unsupported file type", result := none
          calls := [] }
      | some (media_id, mime0, original_filename) =>
        if pyTruthyS media_id = false then
          { state := st, success := false, reply := "No media ID found", result := none
            calls := [] }
        else
          let mid := media_id.getD ""
          match env.download with
          | none =>
            { state := st, success := false, reply := "Failed to download file from WhatsApp"
              result := none, calls := [ExtCall.downloadMedia mid] }
          | some (file_content, detected_mime) =>
            if file_content = [] then
              { state := st, success := false
                reply := "Failed to download file from WhatsApp"
                result := none, calls := [ExtCall.downloadMedia mid] }
            else
              let mime_type := pyOrStr detected_mime mime0
              let extension := get_file_extension (some original_filename) (some mime_type)
              let ftb := determine_file_type_and_bucket extension (some mime_type)
              let unique_filename := generate_unique_filename user_id (some original_filename)
                (some from_number) env.now env.random_id
              if pyTruthyS env.uploadUrl = false then
                { state := st, success := false, reply := "Failed to upload file to storage"
                  result := none
                  calls := [ExtCall.downloadMedia mid, ExtCall.upload ftb.2 unique_filename] }
              else
                let file_url := env.uploadUrl.getD ""
                match env.persist with
                | none =>
                  { state := st, success := false, reply := "Failed to store file metadata"
                    result := none
                    calls := [ExtCall.downloadMedia mid, ExtCall.upload ftb.2 unique_filename,
                      ExtCall.insertRecord] }
                | some record =>
                  match imageUpdateEscapes env ftb.1 with
                  | some e =>
                    { state := st
                      success := false
                      reply := e
                      result := none
                      calls := [ExtCall.downloadMedia mid, ExtCall.upload ftb.2 unique_filename,
                        ExtCall.insertRecord, ExtCall.detectImage] }
                  | none =>
                    let det := runDetection env ftb.1
                    { state := st.setMode from_number none
                      success := true
                      reply := ""
                      result := some
                        { file_url := file_url
                          filename := unique_filename
                          file_type := ftb.1
                          bucket := ftb.2
                          size := file_content.length
                          record_id := record.id
                          msg_type := message.msgType
                          detection := det.2 }
                      calls := [ExtCall.downloadMedia mid, ExtCall.upload ftb.2 unique_filename,
                        ExtCall.insertRecord] ++ det.1 }

/-! ## Reply formatting and the top-level router -/

/-- Structural view of the image branch of `format_media_response`
(`message_handler.py` lines 550-569): the verdict headline, the
confidence as an exact percentage value (the Python `:.1%` decimal
rendering is abstracted to the rational percent it displays) and the
classification label. -/
structure ImageReplyView where
  headline : String
  confidencePercent : ℚ
  classification : String
deriving Repr, DecidableEq

/-- Image verdict rendering of `format_media_response`. -/
def formatImageDetectionView (d : ImageDetInfo) : ImageReplyView :=
  { headline := if d.is_ai_generated then "🤖 *AI-GENERATED IMAGE*" else "✅ *REAL PHOTOGRAPH*"
    confidencePercent := d.confidence * 100
    classification := d.top_prediction }

/-- Translation of `format_media_response(msg_type, result)`
(`message_handler.py` lines 481-617).  Numeric rendering (`:.1%`, `:,`)
is abstracted to `toString` of the exact rational/size, and the video
per-layer breakdown lines are not reproduced (the per-layer data is not
modelled); the branch structure, headlines and labels follow the
source. -/
def format_media_response (msg_type : String) (r : PipelineResult) : String :=
  let emoji := if msg_type = "image" then "🖼" else if msg_type = "video" then "🎥"
    else if msg_type = "document" then "📄" else "📁"
  let header := emoji ++ " " ++ msg_type.capitalize ++ " uploaded successfully!\n\n"
    ++ "📁 File: " ++ r.filename ++ "\n📊 Type: " ++ r.file_type ++ "\n💾 Size: "
    ++ toString r.size ++ " bytes\n\n"
  header ++
    match r.detection with
    | none => ""
    | some (DetectionInfo.errInfo e) =>
      "❌ *Detection Error*\nError: " ++ (⟨e.data.take 100⟩ : String)
        ++ "\n\nPlease try again or contact support."
    | some (DetectionInfo.videoDet resp) =>
      (if resp.final_verdict = some "FAKE" then "🚨 *DEEPFAKE DETECTED*\n"
       else "✅ *AUTHENTIC VIDEO*\n")
        ++ "⚠️ Confidence: " ++ toString ((resp.confidence.getD 0) * 100)
        ++ "%\n\n📊 *Analysis Breakdown:*\n🤖 Model: Balanced-3Layer-Pipeline-v1"
    | some (DetectionInfo.imageDet d) =>
      let v := formatImageDetectionView d
      v.headline ++ "\nConfidence: " ++ toString v.confidencePercent
        ++ "%\n\n📊 Classification: " ++ v.classification
        ++ "\n🤖 Model: EfficientFormer-S2V1\n\n━━━━━━━━━━━━━━━━\nType \x27start\x27 to analyze another file"
    | some (DetectionInfo.docDet pred conf is_ai agreement) =>
      (if is_ai then "🤖 *AI-GENERATED TEXT DETECTED*\n"
       else if pred = "Human" then "✅ *AUTHENTIC HUMAN TEXT*\n" else "❓ *UNCERTAIN*\n")
        ++ "Confidence: " ++ toString (conf * 100) ++ "%\n\n📊 Prediction: " ++ pred
        ++ "\n🎯 Agreement: " ++ agreement.getD "N/A"
        ++ "\n🤖 Model: Ensemble-AI-Detector-v3\n\n━━━━━━━━━━━━━━━━\nType \x27start\x27 to analyze another file"

/-- Rendering of an optional string inside an f-string (`None` prints as
`"None"`). -/
def pyShowOptStr : Option String → String
  | none => "None"
  | some s => s

/-- Result of `process_whatsapp_message`: updated store, the reply the
webhook will send, and the trace of external calls already made. -/
structure ProcResult where
  state : BotState
  reply : String
  calls : List ExtCall

/-- Translation of `process_whatsapp_message(message, from_number)`
(`message_handler.py` lines 620-656): route text to the text handler,
media to the media handler (formatting success or error), and greet or
reject unsupported types. -/
def process_whatsapp_message (env : MediaEnv) (st : BotState) (message : InMessage)
    (from_number : String) : ProcResult :=
  if message.msgType = some "text" then
    let r := handle_text_message env.textDetect st from_number message.textBody
    { state := r.state, reply := r.reply, calls := r.calls }
  else if message.msgType = some "image" ∨ message.msgType = some "video"
      ∨ message.msgType = some "document" then
    let r := handle_media_message env st message from_number none
    { state := r.state
      reply :=
        if r.success then
          match r.result with
          | some res => format_media_response (pyShowOptStr message.msgType) res
          | none => ""
        else
          "❌ Error processing " ++ pyShowOptStr message.msgType ++ ": " ++ r.reply
            ++ "\n\nPlease try again or contact support if the issue persists."
      calls := r.calls }
  else if st.greeted from_number = false then
    { state := st.setGreeted from_number, reply := WELCOME_MESSAGE, calls := [] }
  else
    { state := st
      reply := "⚠ Unsupported message type \x27" ++ pyShowOptStr message.msgType
        ++ "\x27.\n\n" ++ HELP_MESSAGE
      calls := [] }

/-- The texts pushed through `send_whatsapp_message` in a call trace. -/
def sentMessages (calls : List ExtCall) : List String :=
  calls.filterMap (fun c => match c with
    | ExtCall.sendMessage _ m => some m
    | _ => none)

/-- All texts the sender receives from one routed message: direct sends
plus the returned reply (which the webhook sends afterwards). -/
def ProcResult.allReplies (r : ProcResult) : List String :=
  sentMessages r.calls ++ [r.reply]

/-- True for trace entries that are plain outbound chat messages, false
for every Intake Pipeline call (download, upload, persist, update,
detect). -/
def isSendOnly : ExtCall → Bool
  | ExtCall.sendMessage _ _ => true
  | _ => false

/-- Claim C2: a greeted sender in `AWAITING_VIDEO` mode sending an image
gets a corrective reply, the Intake Pipeline is never invoked (empty
call trace: no download, upload, persistence or detector call), and the
session store is unchanged. -/
theorem claim_C2 (env : MediaEnv) (st : BotState) (message : InMessage)
    (from_number : String) (user_id : Option String)
    (hg : st.greeted from_number = true)
    (hmode : st.mode from_number = some UserMode.video)
    (htype : message.msgType = some "image") :
    (handle_media_message env st message from_number user_id).success = false ∧
    (handle_media_message env st message from_number user_id).reply
        = MISMATCH_IMAGE_REPLY "video" ∧
    (handle_media_message env st message from_number user_id).calls = [] ∧
    (handle_media_message env st message from_number user_id).state = st := by
  simp [handle_media_message, hg, hmode, htype, modeStr]

/-- Concrete session store for the C2 witness: sender `"333"` greeted, in
`AWAITING_VIDEO` mode. -/
def c2State : BotState :=
  { greeted := fun n => n == "333", mode := fun _ => some UserMode.video }

/-- Concrete environment for witnesses: every external call would
succeed, so any absence of pipeline effects is due to the handler
logic alone. -/
def happyEnv : MediaEnv :=
  { now := 1700000000
    random_id := "abcd1234"
    download := some ([1, 2, 3], some "image/png")
    uploadUrl := some "http://public/url"
    persist := some { id := some "rec-1" }
    videoDetect := Except.ok { final_verdict := some "REAL", confidence := some (9/10) }
    imageDetect := Except.ok
      { top_prediction := some "AI", label := none, prediction := none
        confidence := some (8/10), score := none }
    imageUpdate := none
    extractDoc := Except.ok { text := "some extracted document text content", method := "pymupdf" }
    textDetect := Except.ok
      { success := true, prediction := "Human", confidence_percent := "85.0%"
        is_ai := false, confidence := 85/100, agreement := some "3/3", error := none } }

/-- Message carrying an image attachment, for witnesses. -/
def imageMessage : InMessage :=
  { msgType := some "image"
    image := { id := some "media-1", mime_type := some "image/jpeg", filename := none } }

/-- Witness for C2 at sender `"333"` awaiting a video and sending an
image. -/
theorem claim_C2_witness :
    (handle_media_message happyEnv c2State imageMessage "333" none).success = false ∧
    (handle_media_message happyEnv c2State imageMessage "333" none).reply
        = MISMATCH_IMAGE_REPLY "video" ∧
    (handle_media_message happyEnv c2State imageMessage "333" none).calls = [] ∧
    (handle_media_message happyEnv c2State imageMessage "333" none).state = c2State :=
  claim_C2 happyEnv c2State imageMessage "333" none (by decide) rfl rfl

/-- Concrete session store for the C3 theorems: sender `"333"` greeted,
in `AWAITING_IMAGE` mode. -/
def c3State : BotState :=
  { greeted := fun n => n == "333", mode := fun _ => some UserMode.image }

/-- Environment in which everything succeeds except the image-branch
success-path record update, which raises a storage error. -/
def imageUpdateFailEnv : MediaEnv :=
  { happyEnv with
    imageUpdate := some "APIError: new row violates row-level security policy for detection_history" }

/-- Counterexample to C3 as stated: sender `"333"` awaits an image and
uploads one; download, upload and persistence all succeed (the
Detection Record exists — the insert is in the trace and acknowledged)
and the detector answers, but the success-path record update raises; it
is guarded only by an exception handler for `ModalDetectionError`
(`message_handler.py` lines 324-336), so the exception reaches the
outer handler (line 476) and the run terminates with an error reply and
the mode still `AWAITING_IMAGE` — a terminal outcome after a Detection
Record exists that does not reset the mode to `IDLE`. -/
theorem claim_C3_counterexample :
    ExtCall.insertRecord
        ∈ (handle_media_message imageUpdateFailEnv c3State imageMessage "333" none).calls ∧
    imageUpdateFailEnv.persist.isSome = true ∧
    (handle_media_message imageUpdateFailEnv c3State imageMessage "333" none).success
        = false ∧
    (handle_media_message imageUpdateFailEnv c3State imageMessage "333" none).state.mode "333"
        = some UserMode.image := by decide

/-- Claim C3 (amended): for a greeted sender, every aborting run of
`handle_media_message` leaves the sender mode unchanged (conjunct 1);
whenever a Detection Record exists (the insert is in the trace and
acknowledged) and the image success-path record update does not raise,
the run reaches its success return and the mode is reset to `IDLE`
(conjunct 2), as it is on every success return (conjunct 3); the only
terminal outcome after a Detection Record exists that skips the reset
is a raising image success-path record update, uncaught because that
branch handles only `ModalDetectionError` (conjunct 4). -/
theorem claim_C3_amended (env : MediaEnv) (st : BotState) (message : InMessage)
    (from_number : String) (user_id : Option String)
    (hg : st.greeted from_number = true) :
    ((handle_media_message env st message from_number user_id).success = false →
      (handle_media_message env st message from_number user_id).state.mode from_number
        = st.mode from_number) ∧
    (ExtCall.insertRecord ∈ (handle_media_message env st message from_number user_id).calls →
      env.persist.isSome = true → env.imageUpdate = none →
      (handle_media_message env st message from_number user_id).state.mode from_number
        = none) ∧
    ((handle_media_message env st message from_number user_id).success = true →
      (handle_media_message env st message from_number user_id).state.mode from_number
        = none) ∧
    (ExtCall.insertRecord ∈ (handle_media_message env st message from_number user_id).calls →
      env.persist.isSome = true →
      (handle_media_message env st message from_number user_id).success = false →
      ¬ env.imageUpdate = none) := by
  have hng : ¬(st.greeted from_number = false) := by simp [hg]
  unfold handle_media_message
  rw [if_neg hng]
  repeat' split
  all_goals dsimp only
  all_goals repeat' split
  all_goals
    dsimp only
    refine ⟨fun hs => ?_, fun hmem hp hupd => ?_, fun hs => ?_, fun hmem hp hs hupd => ?_⟩
  all_goals
    first
      | rfl
      | exact absurd hs (by decide)
      | (simp at hmem; done)
      | (simp [BotState.setMode])
      | (simp_all [BotState.setMode, imageUpdateEscapes])

/-- Witness for C3 (amended): in a fully successful environment
(acknowledged image update included), the image upload run of sender
`"333"` resets the mode to `None`. -/
theorem claim_C3_amended_witness :
    ((handle_media_message happyEnv c3State imageMessage "333" none).success = false →
      (handle_media_message happyEnv c3State imageMessage "333" none).state.mode "333"
        = c3State.mode "333") ∧
    (ExtCall.insertRecord ∈ (handle_media_message happyEnv c3State imageMessage "333" none).calls →
      happyEnv.persist.isSome = true → happyEnv.imageUpdate = none →
      (handle_media_message happyEnv c3State imageMessage "333" none).state.mode "333"
        = none) ∧
    ((handle_media_message happyEnv c3State imageMessage "333" none).success = true →
      (handle_media_message happyEnv c3State imageMessage "333" none).state.mode "333"
        = none) ∧
    (ExtCall.insertRecord ∈ (handle_media_message happyEnv c3State imageMessage "333" none).calls →
      happyEnv.persist.isSome = true →
      (handle_media_message happyEnv c3State imageMessage "333" none).success = false →
      ¬ happyEnv.imageUpdate = none) :=
  claim_C3_amended happyEnv c3State imageMessage "333" none (by decide)

/-- Claim C7: a sender with no prior state (never greeted, no stored
mode) who sends any first event — text with any body, media of any kind,
or an unsupported type — receives the welcome reply among the messages
sent, ends up greeted with mode `IDLE` (`None`), and no command takes
effect and no Intake Pipeline call is made (the trace holds only
outbound chat messages). -/
theorem claim_C7 (env : MediaEnv) (st : BotState) (message : InMessage) (from_number : String)
    (hg : st.greeted from_number = false)
    (hm : st.mode from_number = none) :
    WELCOME_MESSAGE ∈ (process_whatsapp_message env st message from_number).allReplies ∧
    (process_whatsapp_message env st message from_number).state.greeted from_number = true ∧
    (process_whatsapp_message env st message from_number).state.mode from_number = none ∧
    (process_whatsapp_message env st message from_number).calls.all isSendOnly = true := by
  by_cases ht : message.msgType = some "text"
  · simp [process_whatsapp_message, ht, handle_text_message, hg, ProcResult.allReplies,
      sentMessages, BotState.setMode, BotState.setGreeted]
  · by_cases hmed : message.msgType = some "image" ∨ message.msgType = some "video"
        ∨ message.msgType = some "document"
    · simp [process_whatsapp_message, ht, hmed, handle_media_message, hg,
        ProcResult.allReplies, sentMessages, BotState.setMode, BotState.setGreeted, isSendOnly]
    · simp [process_whatsapp_message, ht, hmed, hg, hm, ProcResult.allReplies,
        sentMessages, BotState.setMode, BotState.setGreeted]

/-- State with no prior contact from anyone, for the C7 witness. -/
def freshState : BotState :=
  { greeted := fun _ => false, mode := fun _ => none }

/-- Witness for C7: a brand-new sender sending an image as their very
first event. -/
theorem claim_C7_witness :
    WELCOME_MESSAGE ∈ (process_whatsapp_message happyEnv freshState imageMessage "999").allReplies ∧
    (process_whatsapp_message happyEnv freshState imageMessage "999").state.greeted "999" = true ∧
    (process_whatsapp_message happyEnv freshState imageMessage "999").state.mode "999" = none ∧
    (process_whatsapp_message happyEnv freshState imageMessage "999").calls.all isSendOnly
        = true :=
  claim_C7 happyEnv freshState imageMessage "999" rfl rfl

/-- Claim C10: when the image detector responds with none of the label
fields (`top_prediction`, `label`, `prediction`) and neither
`confidence` nor `score`, the image intake path classifies the asset as
REAL at confidence `0.5` without raising: the Detection Record update
carries `detection_result = "REAL"` and `confidence_score = 50`, and the
reply renders the real-photograph headline at 50 percent. -/
theorem claim_C10 (env : MediaEnv) (resp : ImageResp)
    (henv : env.imageDetect = Except.ok resp)
    (h1 : resp.top_prediction = none) (h2 : resp.label = none) (h3 : resp.prediction = none)
    (h4 : resp.confidence = none) (h5 : resp.score = none) :
    (runDetection env "image").1
        = [ExtCall.detectImage, ExtCall.updateRecord (some "REAL") (some 50)] ∧
    (runDetection env "image").2 = some (DetectionInfo.imageDet
      { final_verdict := "REAL", confidence := 1/2, top_prediction := ""
        is_ai_generated := false }) ∧
    formatImageDetectionView (processImageDetection resp).2
        = { headline := "✅ *REAL PHOTOGRAPH*", confidencePercent := 50
            classification := "" } := by
  obtain ⟨tp, lb, pr, cf, sc⟩ := resp
  dsimp only at h1 h2 h3 h4 h5
  subst h1 h2 h3 h4 h5
  have hpi : pyInt ((1 : ℚ)/2 * 100) = 50 := by
    unfold pyInt
    rw [if_pos (by norm_num)]
    show ⌊((1 : ℚ)/2 * 100)⌋ = 50
    norm_num
  have hproc : processImageDetection
      { top_prediction := none, label := none, prediction := none, confidence := none
        score := none }
      = ((some "REAL", some (pyInt ((1 : ℚ)/2 * 100))),
         { final_verdict := "REAL", confidence := 1/2, top_prediction := ""
           is_ai_generated := false }) := rfl
  have hview : formatImageDetectionView
      { final_verdict := "REAL", confidence := 1/2, top_prediction := ""
        is_ai_generated := false }
      = { headline := "✅ *REAL PHOTOGRAPH*", confidencePercent := (1 : ℚ)/2 * 100
          classification := "" } := rfl
  refine ⟨?_, ?_, ?_⟩
  · simp only [runDetection, henv]
    rw [if_neg (by decide)]
    simp only [hproc, hpi]
    rw [if_pos trivial]
  · simp only [runDetection, henv]
    rw [if_neg (by decide)]
    simp only [hproc]
    rw [if_pos trivial]
  · rw [hproc, hview]
    have : ((1 : ℚ)/2 * 100) = 50 := by norm_num
    rw [this]

/-- Image-detector response with every tolerated field absent, for the
C10 witness. -/
def emptyImageResp : ImageResp :=
  { top_prediction := none, label := none, prediction := none, confidence := none
    score := none }

/-- Environment whose image detector returns the all-absent response,
for the C10 witness. -/
def c10Env : MediaEnv :=
  { happyEnv with imageDetect := Except.ok emptyImageResp }

/-- Witness for C10 at the all-absent detector response. -/
theorem claim_C10_witness :
    (runDetection c10Env "image").1
        = [ExtCall.detectImage, ExtCall.updateRecord (some "REAL") (some 50)] ∧
    (runDetection c10Env "image").2 = some (DetectionInfo.imageDet
      { final_verdict := "REAL", confidence := 1/2, top_prediction := ""
        is_ai_generated := false }) ∧
    formatImageDetectionView (processImageDetection emptyImageResp).2
        = { headline := "✅ *REAL PHOTOGRAPH*", confidencePercent := 50
            classification := "" } :=
  claim_C10 c10Env emptyImageResp rfl rfl rfl rfl rfl rfl

end WhatsappBot
